import Mathlib

/-!
Verification of the Provider Dispatch & Normalization Core of a multi-provider
LLM comparison app (React frontend `src/App.js`, `src/api/aiServices.js`, and an
Express proxy server).  The JavaScript source is embedded shallowly: JS strings
become `String`, possibly-undefined values become `Option`, thrown errors become
`Except String`, and the ambient process environment becomes an explicit
function `String → Option String`.
-/

set_option maxHeartbeats 1000000
set_option maxRecDepth 100000

/-- JS truthiness of a string value: the empty string is falsy. -/
def jsStrTruthy (s : String) : Bool := s ≠ ""

/-- JS truthiness of a possibly-undefined string (`undefined` and `""` are falsy). -/
def jsOptTruthy (o : Option String) : Bool :=
  match o with
  | some s => s ≠ ""
  | none => false

/-- JS `a || b` on a possibly-undefined string `a` with string fallback `b`. -/
def jsOrElse (o : Option String) (b : String) : String :=
  match o with
  | some s => if s = "" then b else s
  | none => b

/-- The characters `String.prototype.trim` strips (the common ASCII whitespace
characters; exotic unicode spaces are not modelled). -/
def isJsWhitespace (c : Char) : Bool :=
  c = ' ' || c = '\t' || c = '\n' || c = '\r' || c = '\x0b' || c = '\x0c'

/-- Strip leading and trailing whitespace from a character list. -/
def trimChars (l : List Char) : List Char :=
  ((l.dropWhile isJsWhitespace).reverse.dropWhile isJsWhitespace).reverse

/-- JS `s.trim()`. -/
def jsTrim (s : String) : String := ⟨trimChars s.data⟩

/-- JS `Array.prototype.join(sep)`. -/
def jsJoin (sep : String) : List String → String
  | [] => ""
  | [x] => x
  | x :: y :: rest => x ++ sep ++ jsJoin sep (y :: rest)

/-- A provider entry of the server-side `PROVIDER_CONFIG` map
(`server/providerConfig.js`). `versionHeader` is only present for Anthropic. -/
structure ServerProviderDescriptor where
  id : String
  displayName : String
  apiBaseUrl : String
  defaultModel : String
  versionHeader : Option String
  environmentKey : String
deriving DecidableEq, Repr

/-- The server-side `PROVIDER_CONFIG` object from `server/providerConfig.js`,
as a lookup function (JS property access returns `undefined` for other keys). -/
def PROVIDER_CONFIG : String → Option ServerProviderDescriptor
  | "anthropic" => some
      { id := "anthropic"
        displayName := "Anthropic Claude"
        apiBaseUrl := "https://api.anthropic.com/v1"
        defaultModel := "claude-3-haiku-20240307"
        versionHeader := some "2023-06-01"
        environmentKey := "ANTHROPIC_API_KEY" }
  | "openai" => some
      { id := "openai"
        displayName := "OpenAI ChatGPT"
        apiBaseUrl := "https://api.openai.com/v1"
        defaultModel := "gpt-4o-mini"
        versionHeader := none
        environmentKey := "OPENAI_API_KEY" }
  | "gemini" => some
      { id := "gemini"
        displayName := "Google Gemini"
        apiBaseUrl := "https://generativelanguage.googleapis.com/v1beta"
        defaultModel := "gemini-2.5-flash"
        versionHeader := none
        environmentKey := "GEMINI_API_KEY" }
  | _ => none

/-- Is a character one of the two quote characters of the character class
`['"]` used in `ensureApiKey`'s sanitizing regex. -/
def isQuoteChar (c : Char) : Bool := c = '\'' || c = '"'

/-- First half of the regex `/^['"]|['"]$/g`: drop the first character when it
is a quote character. -/
def stripLeadingQuote : List Char → List Char
  | [] => []
  | c :: rest => if isQuoteChar c then rest else c :: rest

/-- Second half of the regex `/^['"]|['"]$/g`: drop the last character when it
is a quote character. -/
def stripTrailingQuote (l : List Char) : List Char :=
  match l.getLast? with
  | some c => if isQuoteChar c then l.dropLast else l
  | none => l

/-- `envKey.trim().replace(/^['"]|['"]$/g, '')` from `ensureApiKey`
(server `index.js` line 124): trim, then delete a leading quote character and a
trailing quote character.  The two alternatives of the regex match
independently (the global flag replaces every match), so the quotes need not
form a matching pair. -/
def sanitizeEnvKey (s : String) : String :=
  ⟨stripTrailingQuote (stripLeadingQuote (jsTrim s).data)⟩

/-- The `Missing API key. …` error message thrown by `ensureApiKey` when the
environment variable is absent or empty. -/
def missingKeyMsg (config : ServerProviderDescriptor) : String :=
  "Missing API key. Define " ++ config.environmentKey ++
    " in the server environment or authenticate a key for " ++ config.displayName ++ "."

/-- The `… defined but empty.` error message thrown by `ensureApiKey` when the
environment variable sanitizes to the empty string. -/
def emptyKeyMsg (config : ServerProviderDescriptor) : String :=
  "The environment variable " ++ config.environmentKey ++ " is defined but empty."

/-- Does a client-supplied override key pass the validity test of
`ensureApiKey`: `explicitKey && explicitKey !== 'undefined' && explicitKey !== 'null'`
where `explicitKey = overrideKey?.trim()`. -/
def overrideKeyValid (overrideKey : Option String) : Bool :=
  match overrideKey with
  | some k => jsTrim k ≠ "" && jsTrim k ≠ "undefined" && jsTrim k ≠ "null"
  | none => false

/-- `ensureApiKey(providerId, overrideKey)` from the server (`index.js` lines
91–154).  `env` is the process environment; a thrown `Error` becomes
`Except.error` of its message.  Debug logging is side-effect only and omitted. -/
def ensureApiKey (env : String → Option String) (providerId : String)
    (overrideKey : Option String) : Except String String :=
  match PROVIDER_CONFIG providerId with
  | none => .error ("Unknown provider " ++ providerId)
  | some config =>
    let allowClientOverride : Bool := env "ALLOW_CLIENT_API_KEYS" == some "true"
    if overrideKeyValid overrideKey && allowClientOverride then
      .ok (jsTrim (overrideKey.getD ""))
    else
      match env config.environmentKey with
      | none => .error (missingKeyMsg config)
      | some envKey =>
        if envKey = "" then .error (missingKeyMsg config)
        else
          let sanitizedKey := sanitizeEnvKey envKey
          if sanitizedKey = "" then .error (emptyKeyMsg config)
          else .ok sanitizedKey

/-- One element of a Gemini candidate's `content.parts` array: either a bare
string, or an object whose `text` field is kept when it is a string
(anything else contributes the empty fragment). -/
inductive GeminiPart where
  | str (s : String)
  | obj (text : Option String)
deriving DecidableEq, Repr

/-- One entry of a `safetyRatings` array: the truthiness of `rating?.blocked`
and the optional `category` string. -/
structure SafetyRating where
  blocked : Bool
  category : Option String
deriving DecidableEq, Repr

/-- The first candidate of a Gemini response, with the fields the handler
reads: `content.parts` (collapsed to `[]` when absent, as the handler's
`primaryCandidate?.content?.parts || []` does), `finishReason`, and
`safetyRatings` (`none` when the field is absent; `some []` is a present,
empty array, which JS treats as truthy). -/
structure GeminiCandidate where
  parts : List GeminiPart
  finishReason : Option String
  safetyRatings : Option (List SafetyRating)
deriving DecidableEq, Repr

/-- `data.promptFeedback` of a Gemini response. -/
structure GeminiPromptFeedback where
  blockReason : Option String
  safetyRatings : Option (List SafetyRating)
deriving DecidableEq, Repr

/-- The parsed body of a Gemini `generateContent` response, restricted to the
fields the handler reads. `candidates` collapses `data.candidates || []`. -/
structure GeminiData where
  candidates : List GeminiCandidate
  promptFeedback : Option GeminiPromptFeedback
  model : Option String
deriving DecidableEq, Repr

/-- `const [primaryCandidate] = data.candidates || []`. -/
def primaryCandidate (data : GeminiData) : Option GeminiCandidate :=
  data.candidates.head?

/-- `primaryCandidate?.content?.parts || []`. -/
def primaryParts (data : GeminiData) : List GeminiPart :=
  ((primaryCandidate data).map GeminiCandidate.parts).getD []

/-- `primaryCandidate?.finishReason`. -/
def primaryFinishReason (data : GeminiData) : Option String :=
  (primaryCandidate data).bind GeminiCandidate.finishReason

/-- `data.promptFeedback?.blockReason`. -/
def geminiBlockReason (data : GeminiData) : Option String :=
  data.promptFeedback.bind GeminiPromptFeedback.blockReason

/-- The text a single part contributes before trimming: the part itself when a
string, its `text` field when that is a string, `''` otherwise. -/
def geminiFragment : GeminiPart → String
  | .str s => s
  | .obj (some t) => t
  | .obj none => ""

/-- The handler's `textFragments`: map each part to its text, trim, and keep
the non-empty (truthy) fragments. -/
def geminiTextFragments (parts : List GeminiPart) : List String :=
  ((parts.map geminiFragment).map jsTrim).filter (fun f => f ≠ "")

/-- `textFragments.join('\n')` — the joined candidate text before any
truncation note or fallback message. -/
def geminiJoinedText (data : GeminiData) : String :=
  jsJoin "\n" (geminiTextFragments (primaryParts data))

/-- `primaryCandidate?.safetyRatings || data.promptFeedback?.safetyRatings || []`:
an array present on the candidate wins even when empty (JS arrays are truthy). -/
def effectiveSafetyRatings (data : GeminiData) : List SafetyRating :=
  match (primaryCandidate data).bind GeminiCandidate.safetyRatings with
  | some rs => rs
  | none =>
    match data.promptFeedback.bind GeminiPromptFeedback.safetyRatings with
    | some rs => rs
    | none => []

/-- `safetyRatings.filter(r => r?.blocked).map(r => r.category).filter(Boolean)`. -/
def blockedCategories (data : GeminiData) : List String :=
  (((effectiveSafetyRatings data).filter SafetyRating.blocked).map
      SafetyRating.category).filterMap
    (fun c =>
      match c with
      | some s => if s = "" then none else some s
      | none => none)

/-- `finishReason && finishReason !== 'STOP'` (truthy and different from STOP). -/
def finishReasonNonStop (fr : Option String) : Bool :=
  match fr with
  | some s => s ≠ "" && s ≠ "STOP"
  | none => false

/-- Rendering of `maxOutputTokens || 'the current'` inside the Gemini limit
messages (`0` is the only falsy number a `Nat` model can carry). -/
def geminiLimitStr (maxOutputTokens : Nat) : String :=
  if maxOutputTokens = 0 then "the current" else toString maxOutputTokens

/-- The truncation note the handler appends when text was produced and
`finishReason === 'MAX_OUTPUT_TOKENS'`. -/
def geminiTruncationNote (maxOutputTokens : Nat) : String :=
  "\n\n(Gemini stopped early after hitting the max output token limit of " ++
    geminiLimitStr maxOutputTokens ++
    " tokens. Increase the limit if you need a longer reply.)"

/-- The handler's `reasonParts` array: a non-STOP finish reason, a block
reason, and the blocked safety categories, in this order. -/
def geminiReasonParts (data : GeminiData) : List String :=
  (match primaryFinishReason data with
   | some s => if s ≠ "" && s ≠ "STOP" then ["finish reason: " ++ s] else []
   | none => []) ++
  (match geminiBlockReason data with
   | some s => if s ≠ "" then ["block reason: " ++ s] else []
   | none => []) ++
  (if (blockedCategories data).length > 0 then
     ["safety categories: " ++ jsJoin ", " (blockedCategories data)]
   else [])

/-- The condition guarding the explanatory no-text message:
`blockReason || (finishReason && finishReason !== 'STOP') || blockedCategories.length`. -/
def geminiHasNoTextSignal (data : GeminiData) : Bool :=
  jsOptTruthy (geminiBlockReason data) ||
    finishReasonNonStop (primaryFinishReason data) ||
    (blockedCategories data).length > 0

/-- The explanatory message emitted when no text was produced but a block
reason, non-STOP finish reason, or blocked safety category is present. -/
def geminiNoTextExplanation (data : GeminiData) : String :=
  "Gemini did not return any text for this prompt (" ++
    (let j := jsJoin "; " (geminiReasonParts data)
     if j = "" then "no details provided" else j) ++
    "). Try rephrasing or adjusting the request."

/-- The message of the handler's second no-text branch
(`finishReason === 'MAX_OUTPUT_TOKENS'` with no text at all). -/
def geminiLimitNoTextMsg (maxOutputTokens : Nat) : String :=
  "Gemini reached the max output token limit of " ++ geminiLimitStr maxOutputTokens ++
    " tokens without returning text. Try increasing the limit or simplifying the prompt."

/-- The generic fallback message. -/
def geminiGenericNoTextMsg : String :=
  "Gemini did not return any text. Check the server logs for the raw response."

/-- The content-normalization block of the `/api/gemini/generate` handler
(server `index.js` lines 363–425): join the first candidate's trimmed text
fragments; append a truncation note when text exists and the finish reason is
`MAX_OUTPUT_TOKENS`; otherwise, when no text was produced, emit an explanatory
message from the block/safety/finish signals, then a limit-specific message,
then a generic fallback. -/
def normalizeGeminiContent (data : GeminiData) (maxOutputTokens : Nat) : String :=
  let content0 := geminiJoinedText data
  let fr := primaryFinishReason data
  let content1 :=
    if content0 ≠ "" && fr == some "MAX_OUTPUT_TOKENS" then
      content0 ++ geminiTruncationNote maxOutputTokens
    else content0
  if content1 = "" then
    let content2 := if geminiHasNoTextSignal data then geminiNoTextExplanation data else ""
    let content3 :=
      if content2 = "" && fr == some "MAX_OUTPUT_TOKENS" then
        geminiLimitNoTextMsg maxOutputTokens
      else content2
    if content3 = "" then geminiGenericNoTextMsg else content3
  else content1

/-- `sub` occurs as a contiguous substring of `s`, at the level of the
underlying character lists. -/
def strContains (sub s : String) : Prop :=
  ∃ pre post : List Char, s.data = pre ++ sub.data ++ post

/-- The normalized per-call result the frontend records for one model
configuration: `{content, model}` on success or `{error, model}` on failure
(the spec calls these fields `content`/`resolvedModel` and
`errorMessage`/`requestedModel`). -/
inductive DispatchOutcome where
  | success (content : String) (model : String)
  | failure (errorMessage : String) (model : String)
deriving DecidableEq, Repr

/-- Is an outcome success-shaped. -/
def DispatchOutcome.isSuccess : DispatchOutcome → Bool
  | .success _ _ => true
  | .failure _ _ => false

/-- A provider entry of the client-side `PROVIDER_CONFIG` map in
`src/api/aiServices.js` (named `CLIENT_…` here only to avoid the clash with
the server-side map of the same name). -/
structure ClientProviderDescriptor where
  id : String
  displayName : String
  defaultModel : String
deriving DecidableEq, Repr

/-- The client-side `PROVIDER_CONFIG` object from `src/api/aiServices.js`. -/
def CLIENT_PROVIDER_CONFIG : String → Option ClientProviderDescriptor
  | "anthropic" => some
      { id := "anthropic", displayName := "Anthropic Claude"
        defaultModel := "claude-3-haiku-20240307" }
  | "openai" => some
      { id := "openai", displayName := "OpenAI ChatGPT"
        defaultModel := "gpt-4o-mini" }
  | "gemini" => some
      { id := "gemini", displayName := "Google Gemini"
        defaultModel := "gemini-2.5-flash" }
  | _ => none

/-- `friendlyProviderName` from `src/api/aiServices.js`. -/
def friendlyProviderName (providerId : String) : String :=
  if providerId = "anthropic" then "Claude"
  else if providerId = "openai" then "ChatGPT"
  else if providerId = "gemini" then "Gemini"
  else providerId

/-- `buildBackendEndpoint` from `src/api/aiServices.js`. -/
def buildBackendEndpoint (apiBaseUrl providerId path : String) : String :=
  apiBaseUrl ++ "/api/" ++ providerId ++ path

/-- The fields of a backend JSON reply body that `performBackendRequest`
reads (`data?.error`, `data.content`, `data.model`). -/
structure BackendBody where
  error : Option String
  content : Option String
  model : Option String
deriving DecidableEq, Repr

/-- What one frontend `fetch` of a backend endpoint settles to:
`networkError` when the fetch itself rejects, otherwise the response's `ok`
flag, `statusText`, and parsed JSON body (`none` when `response.json()`
rejects). -/
inductive FetchResult where
  | networkError (message : String)
  | response (ok : Bool) (statusText : String) (body : Option BackendBody)
deriving DecidableEq, Repr

/-- The mock content string built in `performBackendRequest`'s catch block. -/
def mockContent (friendlyName prompt errorMessage : String) : String :=
  friendlyName ++ "'s response to: \"" ++ prompt ++
    "\"\n\nThis is a mock response from " ++ friendlyName ++
    ". To use the real API, configure the server-side API key or authenticate the model.\n\nError: " ++
    errorMessage

/-- `performBackendRequest` from `src/api/aiServices.js` (lines 154–202).
The request payload and endpoint path only shape the outgoing HTTP request;
the function's result depends on the provider, prompt, requested model, and
how the fetch settles, which is what the embedding captures.  Every error
raised inside the `try` block (network failure, JSON parse failure, non-ok
status) is caught and converted into a success-shaped mock outcome. -/
def performBackendRequest (providerId path prompt : String) (model : Option String)
    (fr : FetchResult) : Except String DispatchOutcome :=
  match CLIENT_PROVIDER_CONFIG providerId with
  | none => .error ("Unsupported provider: " ++ providerId)
  | some config =>
    let fallbackModel := jsOrElse model config.defaultModel
    let mock := fun (msg : String) =>
      DispatchOutcome.success (mockContent (friendlyProviderName providerId) prompt msg)
        (fallbackModel ++ " (mock)")
    match fr with
    | .networkError msg => .ok (mock msg)
    | .response ok statusText body =>
      match body with
      | none => .ok (mock "Failed to parse response payload")
      | some data =>
        if !ok then
          .ok (mock (jsOrElse data.error (jsOrElse (some statusText) "Unknown error")))
        else
          .ok (.success (jsOrElse data.content "") (jsOrElse data.model fallbackModel))

/-- `anthropicRequest` from `src/api/aiServices.js`: posts to `/messages`
with `{prompt, model, apiKey, maxTokens: 1024}`. -/
def anthropicRequest (prompt : String) (model apiKey : Option String)
    (fr : FetchResult) : Except String DispatchOutcome :=
  performBackendRequest "anthropic" "/messages" prompt model fr

/-- `openAIRequest` from `src/api/aiServices.js`: posts to `/chat/completions`
with `{prompt, model, apiKey, maxTokens: 1024, temperature: 0.7}`. -/
def openAIRequest (prompt : String) (model apiKey : Option String)
    (fr : FetchResult) : Except String DispatchOutcome :=
  performBackendRequest "openai" "/chat/completions" prompt model fr

/-- `geminiRequest` from `src/api/aiServices.js`: posts to `/generate` with
`{prompt, model, apiKey, maxOutputTokens: 2048, temperature: 0.7}`. -/
def geminiRequest (prompt : String) (model apiKey : Option String)
    (fr : FetchResult) : Except String DispatchOutcome :=
  performBackendRequest "gemini" "/generate" prompt model fr

/-- `callAIModel` from `src/api/aiServices.js` (lines 248–269): empty or
whitespace-only prompts short-circuit to `{content: '', model: …}` before any
provider check or request; otherwise the provider's request helper runs, and
an unrecognized provider id throws `Unsupported provider: …`. -/
def callAIModel (providerId prompt : String) (model apiKey : Option String)
    (fr : FetchResult) : Except String DispatchOutcome :=
  if jsTrim prompt = "" then
    .ok (.success ""
      (jsOrElse model
        (jsOrElse ((CLIENT_PROVIDER_CONFIG providerId).map ClientProviderDescriptor.defaultModel) "")))
  else if providerId = "anthropic" then anthropicRequest prompt model apiKey fr
  else if providerId = "openai" then openAIRequest prompt model apiKey fr
  else if providerId = "gemini" then geminiRequest prompt model apiKey fr
  else .error ("Unsupported provider: " ++ providerId)

/-- A conversation turn (`{sender, text}` in `App.js`). -/
inductive Sender where
  | user
  | assistant
deriving DecidableEq, Repr

/-- One message of a model instance's conversation history. -/
structure ConversationTurn where
  sender : Sender
  text : String
deriving DecidableEq, Repr

/-- `formatConversationForPrompt` from `App.js` (lines 32–36): drop turns with
falsy text, label the rest `User:`/`Assistant:`, and join with blank lines. -/
def formatConversationForPrompt (conversation : List ConversationTurn) : String :=
  jsJoin "\n\n"
    ((conversation.filter (fun m => m.text ≠ "")).map
      (fun m => (if m.sender = Sender.user then "User: " else "Assistant: ") ++ m.text))

/-- One entry of the App's `models` state: a user-configured model instance. -/
structure ModelConfiguration where
  id : String
  providerId : String
  name : String
  model : String
  isActive : Bool
  apiKey : Option String
deriving DecidableEq, Repr

/-- How `handleSubmit` records one settled call (`App.js` lines 478–490): the
fulfilled value as-is, or `{error: reason.message || 'Failed to get a
response.', model: model.model}` for a rejection. -/
def settleOutcome (m : ModelConfiguration) (r : Except String DispatchOutcome) : DispatchOutcome :=
  match r with
  | .ok v => v
  | .error msg => .failure (if msg = "" then "Failed to get a response." else msg) m.model

/-- The result assembly of a `handleSubmit` dispatch round (`App.js` lines
466–492): one `callAIModel` per active model via `Promise.allSettled` (so each
call settles independently; `frs` gives how each one's fetch settles), then
one `nextResponses[model.id]` entry per model from its own settled result. -/
def dispatchRound (prompt : String) (models : List ModelConfiguration)
    (frs : List FetchResult) : List (String × DispatchOutcome) :=
  (models.zip frs).map
    (fun p => (p.1.id,
      settleOutcome p.1 (callAIModel p.1.providerId prompt (some p.1.model) p.1.apiKey p.2)))

/-- The conversation-map replacement in `handleSubmit` (`App.js` lines
458–463): the whole `modelConversations` state is replaced by a fresh map with
one single-user-turn history per active model. -/
def resetConversations (prompt : String) (activeModels : List ModelConfiguration) :
    List (String × List ConversationTurn) :=
  activeModels.map (fun m => (m.id, [{ sender := Sender.user, text := prompt }]))

/-- `handleReplySubmit` from `App.js` (lines 1233–1305), restricted to one
instance's history and recorded outcome.  `none` means the early return on a
blank reply (no state change); otherwise the pair is the instance's final
history and the recorded `modelResponses` entry. -/
def handleReplySubmit (existing : List ConversationTurn) (replyValue : String)
    (m : ModelConfiguration) (fr : FetchResult) :
    Option (List ConversationTurn × DispatchOutcome) :=
  let trimmedMessage := jsTrim replyValue
  if trimmedMessage = "" then none
  else
    let conversationWithUser :=
      existing ++ [{ sender := Sender.user, text := trimmedMessage }]
    let promptPayload := formatConversationForPrompt conversationWithUser
    match callAIModel m.providerId promptPayload (some m.model) m.apiKey fr with
    | .ok response =>
      let hist :=
        match response with
        | .success c _ =>
          if c ≠ "" then
            conversationWithUser ++ [{ sender := Sender.assistant, text := c }]
          else conversationWithUser
        | .failure _ _ => conversationWithUser
      some (hist, response)
    | .error msg =>
      some (conversationWithUser,
        .failure (if msg = "" then "Failed to get a response." else msg) m.model)

/-- The shape of one outbound provider request as the server issues it: URL,
method, and the wall-clock timeout configured on the request (`none` when the
call is made with no timeout option at all). -/
structure OutboundCall where
  url : String
  method : String
  timeoutMs : Option Nat
deriving DecidableEq, Repr

/-- The request `postAnthropicJSON` issues for the `/api/anthropic/messages`
handler (server `index.js` lines 42–89): an `https.request` with
`timeout: 25_000` and a `'timeout'` listener that destroys the request. -/
def anthropicOutboundCall : OutboundCall :=
  { url := "https://api.anthropic.com/v1/messages"
    method := "POST"
    timeoutMs := some 25000 }

/-- The `fetch` the `/api/openai/chat/completions` handler issues (server
`index.js` lines 284–301): its options carry method, headers, and body only —
no timeout and no abort signal. -/
def openaiOutboundCall : OutboundCall :=
  { url := "https://api.openai.com/v1/chat/completions"
    method := "POST"
    timeoutMs := none }

/-- The `fetch` the `/api/gemini/generate` handler issues (server `index.js`
lines 337–354): again method, headers, and body only — no timeout and no
abort signal.  URI-encoding of the model and key is not modelled. -/
def geminiOutboundCall (targetModel resolvedKey : String) : OutboundCall :=
  { url := "https://generativelanguage.googleapis.com/v1beta/models/" ++ targetModel ++
      ":generateContent?key=" ++ resolvedKey
    method := "POST"
    timeoutMs := none }

/-- The error message `postAnthropicJSON` rejects with when its 25-second
timeout fires (`request.destroy(new Error('Anthropic request timed out'))`). -/
def anthropicTimeoutMessage : String := "Anthropic request timed out"

/-- One element of an Anthropic response's `content` array: a bare string or
an object with optional `text` and `content` string fields. -/
inductive AnthropicBlock where
  | str (s : String)
  | obj (text : Option String) (content : Option String)
deriving DecidableEq, Repr

/-- `parseAnthropicContent` from the server (`index.js` lines 156–165):
`block?.text || block?.content || ''` per object block, keep truthy results,
join with newlines. -/
def parseAnthropicContent (contentBlocks : List AnthropicBlock) : String :=
  jsJoin "\n"
    ((contentBlocks.map
        (fun b =>
          match b with
          | .str s => s
          | .obj t c => jsOrElse t (jsOrElse c ""))).filter (fun s => s ≠ ""))

/-- The fields of a parsed Anthropic response body the handler reads
(`data.content`, collapsed to `[]` when absent as `parseAnthropicContent`'s
default parameter does, and `data.model`). -/
structure AnthropicData where
  content : List AnthropicBlock
  model : Option String
deriving DecidableEq, Repr

/-- What `postAnthropicJSON` resolves with: upstream status, status message,
raw body, and its JSON parse (`none` when `JSON.parse(response.body)` throws). -/
structure UpstreamResponse where
  status : Nat
  statusMessage : String
  body : String
  parsed : Option AnthropicData
deriving DecidableEq, Repr

/-- The JSON reply of a server endpoint: HTTP status plus the `error` or
`content`/`model` fields of the body. -/
structure ServerReply where
  status : Nat
  error : Option String
  content : Option String
  model : Option String
deriving DecidableEq, Repr

/-- The `/api/anthropic/messages` handler (server `index.js` lines 167–257).
`prompt`/`model`/`apiKey` are the request-body fields (`none` = absent);
`postResult` is how the single `postAnthropicJSON` call settles
(`Except.error` = rejection, e.g. the timeout).  Debug logging is omitted. -/
def anthropicMessagesHandler (env : String → Option String)
    (prompt model apiKey : Option String)
    (postResult : Except String UpstreamResponse) : ServerReply :=
  if !jsOptTruthy prompt then
    { status := 400, error := some "Prompt is required.", content := none, model := none }
  else
    match ensureApiKey env "anthropic" apiKey with
    | .error msg =>
      { status := 500, error := some msg, content := none, model := none }
    | .ok _ =>
      match postResult with
      | .error msg =>
        { status := 500, error := some msg, content := none, model := none }
      | .ok resp =>
        if resp.status ≥ 400 then
          { status := resp.status
            error := some ("Anthropic API error (" ++ toString resp.status ++ " " ++
              resp.statusMessage ++ "): " ++ resp.body)
            content := none, model := none }
        else
          match resp.parsed with
          | none =>
            { status := 502, error := some "Invalid JSON returned from Anthropic"
              content := none, model := none }
          | some data =>
            { status := 200, error := none
              content := some (parseAnthropicContent data.content)
              model := some (jsOrElse data.model
                (jsOrElse model "claude-3-haiku-20240307")) }

/-- A concrete process environment for witnesses: override policy enabled and
an Anthropic key (wrapped in quotes and whitespace) present. -/
def envW : String → Option String := fun k =>
  if k = "ALLOW_CLIENT_API_KEYS" then some "true"
  else if k = "ANTHROPIC_API_KEY" then some " \"sk-env-key\" "
  else none

/-- The App's default Anthropic model instance (`App.js` lines 376–384). -/
def modelA : ModelConfiguration :=
  { id := "anthropic-default", providerId := "anthropic", name := "Claude Sonnet"
    model := "claude-3-haiku-20240307", isActive := true, apiKey := none }

/-- The App's default OpenAI model instance (`App.js` lines 385–393). -/
def modelB : ModelConfiguration :=
  { id := "openai-default", providerId := "openai", name := "ChatGPT GPT-4"
    model := "gpt-4o-mini", isActive := true, apiKey := none }

/-- The App's default Gemini model instance (`App.js` lines 394–402), with the
active flag turned off as the model-manager toggle does. -/
def modelInactive : ModelConfiguration :=
  { id := "gemini-default", providerId := "gemini", name := "Gemini 2.5 Flash"
    model := "gemini-2.5-flash", isActive := false, apiKey := none }

/-- A user-added configuration whose provider id matches no descriptor. -/
def modelBad : ModelConfiguration :=
  { id := "bad-1", providerId := "mistral", name := "Mistral Large"
    model := "mistral-large", isActive := true, apiKey := none }

/-- A Gemini response with no candidates and a SAFETY block reason. -/
def gdataW : GeminiData :=
  { candidates := []
    promptFeedback := some { blockReason := some "SAFETY", safetyRatings := none }
    model := none }

theorem strData_append (s t : String) : (s ++ t).data = s.data ++ t.data := rfl

theorem strContains_self (s : String) : strContains s s :=
  ⟨[], [], by simp⟩

theorem strContains_appendL (s t sub : String) (h : strContains sub t) :
    strContains sub (s ++ t) := by
  obtain ⟨pre, post, hp⟩ := h
  exact ⟨s.data ++ pre, post, by rw [strData_append, hp]; simp [List.append_assoc]⟩

theorem strContains_appendR (s t sub : String) (h : strContains sub s) :
    strContains sub (s ++ t) := by
  obtain ⟨pre, post, hp⟩ := h
  exact ⟨pre, post ++ t.data, by rw [strData_append, hp]; simp [List.append_assoc]⟩

theorem append_ne_empty_left (s t : String) (h : s ≠ "") : s ++ t ≠ "" := by
  intro he
  apply h
  apply String.ext
  have hd := congrArg String.data he
  rw [strData_append] at hd
  exact (List.append_eq_nil.mp hd).1

theorem ne_empty_of_strContains (sub s : String) (h : strContains sub s) (hs : sub ≠ "") :
    s ≠ "" := by
  obtain ⟨pre, post, hp⟩ := h
  intro he
  apply hs
  apply String.ext
  rw [he] at hp
  have : pre ++ (sub.data ++ post) = [] := by simpa [List.append_assoc] using hp.symm
  have h2 := (List.append_eq_nil.mp this).2
  exact (List.append_eq_nil.mp h2).1

theorem strContains_jsJoin (sep sub : String) (l : List String) (x : String)
    (hmem : x ∈ l) (h : strContains sub x) : strContains sub (jsJoin sep l) := by
  induction l with
  | nil => cases hmem
  | cons a tl ih =>
    rcases List.mem_cons.mp hmem with he | hmem2
    · subst he
      cases tl with
      | nil => simpa [jsJoin] using h
      | cons b rest =>
        show strContains sub (x ++ sep ++ jsJoin sep (b :: rest))
        exact strContains_appendR _ _ _ (strContains_appendR _ _ _ h)
    · cases tl with
      | nil => cases hmem2
      | cons b rest =>
        show strContains sub (a ++ sep ++ jsJoin sep (b :: rest))
        exact strContains_appendL _ _ _ (ih hmem2)

theorem lookup_zip_map (f : ModelConfiguration → FetchResult → DispatchOutcome) :
    ∀ (models : List ModelConfiguration) (frs : List FetchResult)
      (i : Nat) (hi : i < models.length) (hi2 : i < frs.length),
      (models.map ModelConfiguration.id).Nodup →
      ((models.zip frs).map (fun p => (p.1.id, f p.1 p.2))).lookup
          (models.get ⟨i, hi⟩).id =
        some (f (models.get ⟨i, hi⟩) (frs.get ⟨i, hi2⟩)) := by
  intro models
  induction models with
  | nil => intro frs i hi; exact absurd hi (by simp)
  | cons m tl ih =>
    intro frs i hi hi2 hnodup
    cases frs with
    | nil => exact absurd hi2 (by simp)
    | cons fr ftl =>
      cases i with
      | zero => simp [List.lookup]
      | succ n =>
        have hn : n < tl.length := Nat.lt_of_succ_lt_succ hi
        have hneq : ¬ ((tl.get ⟨n, hn⟩).id = m.id) := by
          intro he
          have hmem : (tl.get ⟨n, hn⟩).id ∈ tl.map ModelConfiguration.id :=
            List.mem_map_of_mem _ (tl.get_mem _ _)
          rw [he] at hmem
          exact (List.nodup_cons.mp hnodup).1 hmem
        have hbeq : ((tl.get ⟨n, hn⟩).id == m.id) = false :=
          beq_eq_false_iff_ne.mpr hneq
        simp only [List.zip_cons_cons, List.map_cons, List.get_cons_succ, List.lookup, hbeq]
        exact ih ftl n hn (Nat.lt_of_succ_lt_succ hi2) (List.nodup_cons.mp hnodup).2

theorem lookup_reset_not_mem (prompt : String) :
    ∀ (l : List ModelConfiguration) (k : String),
      k ∉ l.map ModelConfiguration.id →
      (resetConversations prompt l).lookup k = none := by
  intro l
  induction l with
  | nil => intro k _; rfl
  | cons m tl ih =>
    intro k hk
    have hne : ¬ (k = m.id) := fun he => hk (by rw [he]; exact List.mem_map_of_mem _ (by simp))
    have hbeq : (k == m.id) = false := beq_eq_false_iff_ne.mpr hne
    simp only [resetConversations, List.map_cons, List.lookup, hbeq]
    exact ih k (fun hmem => hk (List.mem_cons_of_mem _ hmem))

theorem lookup_reset_mem (prompt : String) :
    ∀ (l : List ModelConfiguration) (m : ModelConfiguration),
      m ∈ l → (l.map ModelConfiguration.id).Nodup →
      (resetConversations prompt l).lookup m.id =
        some [{ sender := Sender.user, text := prompt }] := by
  intro l
  induction l with
  | nil => intro m hm; cases hm
  | cons a tl ih =>
    intro m hm hnodup
    cases hm with
    | head => simp [resetConversations, List.lookup]
    | tail _ hm2 =>
      have hne : ¬ (m.id = a.id) := by
        intro he
        have hmem : m.id ∈ tl.map ModelConfiguration.id :=
          List.mem_map_of_mem _ hm2
        rw [he] at hmem
        exact (List.nodup_cons.mp hnodup).1 hmem
      have hbeq : (m.id == a.id) = false := beq_eq_false_iff_ne.mpr hne
      simp only [resetConversations, List.map_cons, List.lookup, hbeq]
      exact ih m hm2 (List.nodup_cons.mp hnodup).2

/-- C9: a call to the dispatch entry point `callAIModel` with an empty or
whitespace-only prompt returns the success-shaped `{content: '', model: given
model or the provider's default or ''}` without raising and without making any
outbound request (the result does not depend on how any fetch would settle),
even for an unrecognized provider id. -/
theorem callAIModel_blank_prompt (providerId prompt : String) (model apiKey : Option String)
    (fr fr2 : FetchResult) (h : jsTrim prompt = "") :
    callAIModel providerId prompt model apiKey fr =
      .ok (.success ""
        (jsOrElse model
          (jsOrElse ((CLIENT_PROVIDER_CONFIG providerId).map ClientProviderDescriptor.defaultModel)
            ""))) ∧
    callAIModel providerId prompt model apiKey fr =
      callAIModel providerId prompt model apiKey fr2 := by
  constructor <;> simp [callAIModel, h]

/-- Witness for `callAIModel_blank_prompt`: a whitespace-only prompt sent to an
unrecognized provider yields `{content: '', model: ''}` and no error. -/
theorem callAIModel_blank_prompt_witness :
    jsTrim "   " = "" ∧
    callAIModel "no-such-provider" "   " none none (.networkError "x") =
      .ok (.success "" "") := by
  refine ⟨by decide, ?_⟩
  exact (callAIModel_blank_prompt "no-such-provider" "   " none none
    (.networkError "x") (.networkError "y") (by decide)).1.trans rfl

/-- C8 counterexample: the environment value `"abc` is already trimmed and has
no matching surrounding quote pair, so per the claim it should be returned
unchanged — but `sanitizeEnvKey` strips the lone leading quote. -/
theorem sanitizeEnvKey_strips_unmatched_quote :
    sanitizeEnvKey "\"abc" = "abc" ∧ jsTrim "\"abc" = "\"abc" ∧
    ¬ sanitizeEnvKey "\"abc" = "\"abc" := by
  refine ⟨by decide, by decide, by decide⟩

/-- C8 (amended): when the credential comes from the environment variable, the
value is trimmed and then a leading quote character and a trailing quote
character are each stripped independently: a surrounding pair (matching or
not) loses both quotes, a lone leading or trailing quote is also stripped, and
a value with neither leading nor trailing quote is returned trimmed but
otherwise unchanged. -/
theorem getLast?_append_single (l : List Char) (a : Char) : (l ++ [a]).getLast? = some a := by
  rw [List.getLast?_append_cons]; rfl

theorem dropLast_append_single (l : List Char) (a : Char) : (l ++ [a]).dropLast = l := by
  simp

theorem sanitizeEnvKey_quote_stripping (s : String) (q1 q2 c : Char) (mid : List Char) :
    (isQuoteChar q1 = true → isQuoteChar q2 = true →
       (jsTrim s).data = q1 :: (mid ++ [q2]) → sanitizeEnvKey s = ⟨mid⟩) ∧
    (isQuoteChar q1 = true → (∀ d, mid.getLast? = some d → isQuoteChar d = false) →
       (jsTrim s).data = q1 :: mid → sanitizeEnvKey s = ⟨mid⟩) ∧
    (isQuoteChar c = false → isQuoteChar q2 = true →
       (jsTrim s).data = c :: (mid ++ [q2]) → sanitizeEnvKey s = ⟨c :: mid⟩) ∧
    ((∀ d, (jsTrim s).data.head? = some d → isQuoteChar d = false) →
       (∀ d, (jsTrim s).data.getLast? = some d → isQuoteChar d = false) →
       sanitizeEnvKey s = jsTrim s) := by
  refine ⟨?_, ?_, ?_, ?_⟩
  · intro hq1 hq2 ht
    have h1 : stripLeadingQuote (jsTrim s).data = mid ++ [q2] := by
      rw [ht]; simp [stripLeadingQuote, hq1]
    have h2 : stripTrailingQuote (mid ++ [q2]) = mid := by
      simp [stripTrailingQuote, getLast?_append_single, dropLast_append_single, hq2]
    simp [sanitizeEnvKey, h1, h2]
  · intro hq1 hlast ht
    cases hm : mid.getLast? with
    | none =>
      simp [sanitizeEnvKey, ht, stripLeadingQuote, hq1, stripTrailingQuote, hm]
    | some d =>
      have hd := hlast d hm
      simp [sanitizeEnvKey, ht, stripLeadingQuote, hq1, stripTrailingQuote, hm, hd]
  · intro hc hq2 ht
    have h1 : stripLeadingQuote (jsTrim s).data = c :: (mid ++ [q2]) := by
      rw [ht]; simp [stripLeadingQuote, hc]
    have h2 : stripTrailingQuote (c :: (mid ++ [q2])) = c :: mid := by
      have hg : (c :: (mid ++ [q2])).getLast? = some q2 := getLast?_append_single (c :: mid) q2
      have hd : (c :: (mid ++ [q2])).dropLast = c :: mid := dropLast_append_single (c :: mid) q2
      simp [stripTrailingQuote, hg, hd, hq2]
    simp [sanitizeEnvKey, h1, h2]
  · intro hhead hlast
    have h1 : stripLeadingQuote (jsTrim s).data = (jsTrim s).data := by
      cases ht : (jsTrim s).data with
      | nil => simp [stripLeadingQuote]
      | cons d rest =>
        have hd := hhead d (by rw [ht]; rfl)
        simp [stripLeadingQuote, hd]
    have h2 : stripTrailingQuote (jsTrim s).data = (jsTrim s).data := by
      cases hm : (jsTrim s).data.getLast? with
      | none => simp [stripTrailingQuote, hm]
      | some d =>
        have hd := hlast d hm
        simp [stripTrailingQuote, hm, hd]
    simp [sanitizeEnvKey, h1, h2]

/-- Witness for `sanitizeEnvKey_quote_stripping`: the environment value
`" 'ab\" "` trims to a single-quote/double-quote surrounded `ab` and both
(non-matching) quotes are stripped. -/
theorem sanitizeEnvKey_quote_stripping_witness :
    sanitizeEnvKey " 'ab\" " = "ab" := by
  have h := (sanitizeEnvKey_quote_stripping " 'ab\" " '\'' '"' 'x' ['a', 'b']).1
  exact (h (by decide) (by decide) (by decide)).trans (by decide)

theorem strContains_missingKeyMsg (config : ServerProviderDescriptor) :
    strContains config.environmentKey (missingKeyMsg config) := by
  unfold missingKeyMsg
  exact strContains_appendR _ _ _ (strContains_appendR _ _ _ (strContains_appendR _ _ _
    (strContains_appendL _ _ _ (strContains_self _))))

theorem strContains_emptyKeyMsg (config : ServerProviderDescriptor) :
    strContains config.environmentKey (emptyKeyMsg config) := by
  unfold emptyKeyMsg
  exact strContains_appendR _ _ _ (strContains_appendL _ _ _ (strContains_self _))

/-- C5: credential resolution for a known provider.  A valid override (trimmed
non-empty, not `'undefined'`/`'null'`) together with the server policy flag
resolves to the trimmed override; otherwise the environment variable named by
the provider's descriptor is used (sanitized); and when that variable is
absent, empty, or sanitizes to empty, resolution fails with an error message
that names the expected environment variable. -/
theorem ensureApiKey_resolution (env : String → Option String) (providerId : String)
    (overrideKey : Option String) (config : ServerProviderDescriptor)
    (hconf : PROVIDER_CONFIG providerId = some config) :
    (overrideKeyValid overrideKey = true → env "ALLOW_CLIENT_API_KEYS" = some "true" →
       ensureApiKey env providerId overrideKey = .ok (jsTrim (overrideKey.getD ""))) ∧
    (∀ envVal,
       (overrideKeyValid overrideKey = false ∨ env "ALLOW_CLIENT_API_KEYS" ≠ some "true") →
       env config.environmentKey = some envVal → envVal ≠ "" → sanitizeEnvKey envVal ≠ "" →
       ensureApiKey env providerId overrideKey = .ok (sanitizeEnvKey envVal)) ∧
    ((overrideKeyValid overrideKey = false ∨ env "ALLOW_CLIENT_API_KEYS" ≠ some "true") →
       (env config.environmentKey = none ∨ env config.environmentKey = some "" ∨
        (∃ envVal, env config.environmentKey = some envVal ∧ sanitizeEnvKey envVal = "")) →
       ∃ msg, ensureApiKey env providerId overrideKey = .error msg ∧
         strContains config.environmentKey msg) := by
  have hcondF : ∀ (hdisj : overrideKeyValid overrideKey = false ∨
      env "ALLOW_CLIENT_API_KEYS" ≠ some "true"),
      (overrideKeyValid overrideKey && (env "ALLOW_CLIENT_API_KEYS" == some "true")) = false := by
    intro hdisj
    rcases hdisj with hv | ha
    · simp [hv]
    · simp [beq_eq_false_iff_ne.mpr ha]
  refine ⟨?_, ?_, ?_⟩
  · intro hv ha
    simp [ensureApiKey, hconf, hv, ha]
  · intro envVal hdisj henv hne hsan
    simp [ensureApiKey, hconf, hcondF hdisj, henv, hne, hsan]
  · intro hdisj hmiss
    rcases hmiss with hnone | hempty | ⟨envVal, henv, hsan⟩
    · exact ⟨missingKeyMsg config,
        by simp [ensureApiKey, hconf, hcondF hdisj, hnone], strContains_missingKeyMsg config⟩
    · exact ⟨missingKeyMsg config,
        by simp [ensureApiKey, hconf, hcondF hdisj, hempty], strContains_missingKeyMsg config⟩
    · by_cases hne : envVal = ""
      · exact ⟨missingKeyMsg config,
          by simp [ensureApiKey, hconf, hcondF hdisj, henv, hne], strContains_missingKeyMsg config⟩
      · exact ⟨emptyKeyMsg config,
          by simp [ensureApiKey, hconf, hcondF hdisj, henv, hne, hsan], strContains_emptyKeyMsg config⟩

/-- Witness for `ensureApiKey_resolution`: with overrides permitted, the
override `"  sk-abc  "` resolves to its trimmed form. -/
theorem ensureApiKey_resolution_witness :
    ensureApiKey envW "anthropic" (some "  sk-abc  ") = .ok "sk-abc" := by
  have h := (ensureApiKey_resolution envW "anthropic" (some "  sk-abc  ") _ rfl).1
    (by decide) (by decide)
  exact h.trans (congrArg Except.ok (by decide))

instance {α β : Type} [DecidableEq α] [DecidableEq β] : DecidableEq (Except α β) := fun a b =>
  match a, b with
  | .ok x, .ok y =>
    if h : x = y then isTrue (by rw [h]) else isFalse (fun he => h (Except.ok.inj he))
  | .error x, .error y =>
    if h : x = y then isTrue (by rw [h]) else isFalse (fun he => h (Except.error.inj he))
  | .ok _, .error _ => isFalse (fun he => Except.noConfusion he)
  | .error _, .ok _ => isFalse (fun he => Except.noConfusion he)

/-- C4 counterexample: the OpenAI- and Gemini-style outbound calls are plain
`fetch` invocations whose options configure no timeout at all, so no 25-second
wall-clock timeout is enforced for them. -/
theorem fetch_calls_have_no_timeout :
    openaiOutboundCall.timeoutMs = none ∧
    (geminiOutboundCall "gemini-2.5-flash" "key").timeoutMs = none ∧
    ¬ openaiOutboundCall.timeoutMs = some 25000 := by
  exact ⟨rfl, rfl, by simp [openaiOutboundCall]⟩

/-- C4 (amended): only the Anthropic-style call configures the 25-second
wall-clock timeout (the OpenAI- and Gemini-style fetches configure none), and
when that timeout fires the Anthropic handler alone replies with the 500
failure `Anthropic request timed out` — failing only that provider's call. -/
theorem anthropic_timeout_only (env : String → Option String)
    (prompt model apiKey : Option String) (k : String)
    (hp : jsOptTruthy prompt = true)
    (hk : ensureApiKey env "anthropic" apiKey = .ok k) :
    anthropicOutboundCall.timeoutMs = some 25000 ∧
    openaiOutboundCall.timeoutMs = none ∧
    (∀ tm key2, (geminiOutboundCall tm key2).timeoutMs = none) ∧
    anthropicMessagesHandler env prompt model apiKey (.error anthropicTimeoutMessage) =
      { status := 500, error := some anthropicTimeoutMessage
        content := none, model := none } := by
  refine ⟨rfl, rfl, fun _ _ => rfl, ?_⟩
  simp [anthropicMessagesHandler, hp, hk]

/-- Witness for `anthropic_timeout_only`: with the environment key present, a
timed-out upstream call yields the 500 timeout reply. -/
theorem anthropic_timeout_only_witness :
    anthropicMessagesHandler envW (some "hi") none none (.error anthropicTimeoutMessage) =
      { status := 500, error := some anthropicTimeoutMessage
        content := none, model := none } := by
  exact (anthropic_timeout_only envW (some "hi") none none "sk-env-key" (by decide)
    (by decide)).2.2.2

/-- C1: a dispatch round over N model configurations (with distinct instance
ids, and one settled fetch per launched call as `Promise.allSettled`
guarantees) produces exactly one outcome per configuration, keyed by its
instance id, and each configuration's entry is computed from its own settled
call alone — so another configuration's rejection or failure cannot remove or
change it. -/
theorem dispatchRound_one_outcome_each (prompt : String) (models : List ModelConfiguration)
    (frs : List FetchResult) (hlen : frs.length = models.length)
    (hnodup : (models.map ModelConfiguration.id).Nodup) :
    (dispatchRound prompt models frs).length = models.length ∧
    ∀ i (hi : i < models.length),
      (dispatchRound prompt models frs).lookup (models.get ⟨i, hi⟩).id =
        some (settleOutcome (models.get ⟨i, hi⟩)
          (callAIModel (models.get ⟨i, hi⟩).providerId prompt (some (models.get ⟨i, hi⟩).model)
            (models.get ⟨i, hi⟩).apiKey (frs.get ⟨i, by rw [hlen]; exact hi⟩))) := by
  constructor
  · simp [dispatchRound, hlen]
  · intro i hi
    exact lookup_zip_map
      (fun m fr => settleOutcome m (callAIModel m.providerId prompt (some m.model) m.apiKey fr))
      models frs i hi (by rw [hlen]; exact hi) hnodup

/-- Witness for `dispatchRound_one_outcome_each`: in a two-model round where
the Anthropic call's fetch rejects, the OpenAI configuration still gets its
own success outcome. -/
theorem dispatchRound_one_outcome_each_witness :
    (dispatchRound "Explain recursion" [modelA, modelB]
        [.networkError "timeout",
         .response true "OK" (some { error := none, content := some "hello"
                                     model := some "gpt-4o-mini" })]).lookup
      "openai-default" = some (.success "hello" "gpt-4o-mini") := by
  have h := (dispatchRound_one_outcome_each "Explain recursion" [modelA, modelB]
    [.networkError "timeout",
     .response true "OK" (some { error := none, content := some "hello"
                                 model := some "gpt-4o-mini" })]
    rfl (by decide)).2 1 (by decide)
  exact h.trans (by decide)

theorem settleOutcome_error (m : ModelConfiguration) (msg : String) (h : msg ≠ "") :
    settleOutcome m (.error msg) = .failure msg m.model := by
  simp [settleOutcome, h]

/-- C6: a configuration whose provider id matches no descriptor fails fast:
`callAIModel` rejects with `Unsupported provider: …` whatever the fetch layer
would do (no outbound request is consumed, no fallback to another provider),
the round records a failure outcome carrying that message for exactly that
configuration, and every other configuration's entry is still computed from
its own call. -/
theorem unknown_provider_fails_fast (prompt : String) (models : List ModelConfiguration)
    (frs : List FetchResult) (i : Nat) (hi : i < models.length)
    (hlen : frs.length = models.length)
    (hnodup : (models.map ModelConfiguration.id).Nodup)
    (hprompt : jsTrim prompt ≠ "")
    (hunknown : CLIENT_PROVIDER_CONFIG (models.get ⟨i, hi⟩).providerId = none) :
    (∀ fr, callAIModel (models.get ⟨i, hi⟩).providerId prompt (some (models.get ⟨i, hi⟩).model)
        (models.get ⟨i, hi⟩).apiKey fr =
      .error ("Unsupported provider: " ++ (models.get ⟨i, hi⟩).providerId)) ∧
    (dispatchRound prompt models frs).lookup (models.get ⟨i, hi⟩).id =
      some (.failure ("Unsupported provider: " ++ (models.get ⟨i, hi⟩).providerId)
        (models.get ⟨i, hi⟩).model) ∧
    (∀ j (hj : j < models.length), j ≠ i →
      (dispatchRound prompt models frs).lookup (models.get ⟨j, hj⟩).id =
        some (settleOutcome (models.get ⟨j, hj⟩)
          (callAIModel (models.get ⟨j, hj⟩).providerId prompt (some (models.get ⟨j, hj⟩).model)
            (models.get ⟨j, hj⟩).apiKey (frs.get ⟨j, by rw [hlen]; exact hj⟩)))) := by
  have hpid1 : (models.get ⟨i, hi⟩).providerId ≠ "anthropic" := by
    intro he; rw [he] at hunknown; exact absurd hunknown (by decide)
  have hpid2 : (models.get ⟨i, hi⟩).providerId ≠ "openai" := by
    intro he; rw [he] at hunknown; exact absurd hunknown (by decide)
  have hpid3 : (models.get ⟨i, hi⟩).providerId ≠ "gemini" := by
    intro he; rw [he] at hunknown; exact absurd hunknown (by decide)
  have hcall : ∀ fr, callAIModel (models.get ⟨i, hi⟩).providerId prompt
      (some (models.get ⟨i, hi⟩).model) (models.get ⟨i, hi⟩).apiKey fr =
      .error ("Unsupported provider: " ++ (models.get ⟨i, hi⟩).providerId) := by
    intro fr
    simp only [List.get_eq_getElem] at hpid1 hpid2 hpid3
    simp [callAIModel, hprompt, hpid1, hpid2, hpid3]
  have hmsgne : ("Unsupported provider: " ++ (models.get ⟨i, hi⟩).providerId) ≠ "" :=
    append_ne_empty_left _ _ (by decide)
  refine ⟨hcall, ?_, ?_⟩
  · have hlook : (dispatchRound prompt models frs).lookup (models.get ⟨i, hi⟩).id =
        some (settleOutcome (models.get ⟨i, hi⟩)
          (callAIModel (models.get ⟨i, hi⟩).providerId prompt (some (models.get ⟨i, hi⟩).model)
            (models.get ⟨i, hi⟩).apiKey (frs.get ⟨i, by rw [hlen]; exact hi⟩))) :=
      lookup_zip_map
        (fun m fr => settleOutcome m (callAIModel m.providerId prompt (some m.model) m.apiKey fr))
        models frs i hi (by rw [hlen]; exact hi) hnodup
    rw [hcall] at hlook
    rw [settleOutcome_error _ _ hmsgne] at hlook
    exact hlook
  · intro j hj _
    exact lookup_zip_map
      (fun m fr => settleOutcome m (callAIModel m.providerId prompt (some m.model) m.apiKey fr))
      models frs j hj (by rw [hlen]; exact hj) hnodup

/-- Witness for `unknown_provider_fails_fast`: a round containing a `mistral`
configuration records an `Unsupported provider: mistral` failure for it. -/
theorem unknown_provider_fails_fast_witness :
    (dispatchRound "hi" [modelBad, modelB]
        [.networkError "x",
         .response true "OK" (some { error := none, content := some "ok"
                                     model := none })]).lookup "bad-1" =
      some (.failure "Unsupported provider: mistral" "mistral-large") := by
  have h := (unknown_provider_fails_fast "hi" [modelBad, modelB]
    [.networkError "x",
     .response true "OK" (some { error := none, content := some "ok", model := none })]
    0 (by decide) rfl (by decide) (by decide) (by decide)).2.1
  exact h.trans (by decide)

/-- C2 counterexample: a network-level error does not yield a failure-shaped
outcome; `performBackendRequest` resolves it into a success-shaped mock
outcome (`{content, model}` with the model suffixed ` (mock)`). -/
theorem networkError_yields_success_shape :
    performBackendRequest "anthropic" "/messages" "hi" none (.networkError "connection reset") =
      .ok (.success (mockContent "Claude" "hi" "connection reset")
        "claude-3-haiku-20240307 (mock)") ∧
    (DispatchOutcome.success (mockContent "Claude" "hi" "connection reset")
        "claude-3-haiku-20240307 (mock)").isSuccess = true := by
  exact ⟨by decide, rfl⟩

theorem strContains_mockContent (f p msg : String) : strContains msg (mockContent f p msg) := by
  unfold mockContent
  exact strContains_appendL _ _ _ (strContains_self _)

/-- C2 (amended): for a known provider, `performBackendRequest` never rejects;
a network-level error, a JSON parse failure, or a non-ok HTTP status each
resolve to a success-shaped mock outcome whose content embeds the
human-readable error message and whose model is the fallback model suffixed
` (mock)`. -/
theorem backend_failures_become_mock_success (providerId path prompt : String)
    (model : Option String) (fr : FetchResult) (config : ClientProviderDescriptor)
    (hconf : CLIENT_PROVIDER_CONFIG providerId = some config) :
    (∃ o, performBackendRequest providerId path prompt model fr = .ok o) ∧
    (∀ msg, fr = .networkError msg →
       performBackendRequest providerId path prompt model fr =
         .ok (.success (mockContent (friendlyProviderName providerId) prompt msg)
           (jsOrElse model config.defaultModel ++ " (mock)")) ∧
       strContains msg (mockContent (friendlyProviderName providerId) prompt msg)) ∧
    (∀ ok st, fr = .response ok st none →
       performBackendRequest providerId path prompt model fr =
         .ok (.success
           (mockContent (friendlyProviderName providerId) prompt
             "Failed to parse response payload")
           (jsOrElse model config.defaultModel ++ " (mock)"))) ∧
    (∀ st body, fr = .response false st (some body) →
       performBackendRequest providerId path prompt model fr =
         .ok (.success
           (mockContent (friendlyProviderName providerId) prompt
             (jsOrElse body.error (jsOrElse (some st) "Unknown error")))
           (jsOrElse model config.defaultModel ++ " (mock)")) ∧
       strContains (jsOrElse body.error (jsOrElse (some st) "Unknown error"))
         (mockContent (friendlyProviderName providerId) prompt
           (jsOrElse body.error (jsOrElse (some st) "Unknown error")))) := by
  refine ⟨?_, ?_, ?_, ?_⟩
  · cases fr with
    | networkError m =>
      exact ⟨.success (mockContent (friendlyProviderName providerId) prompt m)
          (jsOrElse model config.defaultModel ++ " (mock)"),
        by simp [performBackendRequest, hconf]⟩
    | response ok st body =>
      cases body with
      | none =>
        exact ⟨.success (mockContent (friendlyProviderName providerId) prompt
              "Failed to parse response payload")
            (jsOrElse model config.defaultModel ++ " (mock)"),
          by simp [performBackendRequest, hconf]⟩
      | some b =>
        cases ok with
        | false =>
          exact ⟨.success (mockContent (friendlyProviderName providerId) prompt
                (jsOrElse b.error (jsOrElse (some st) "Unknown error")))
              (jsOrElse model config.defaultModel ++ " (mock)"),
            by simp [performBackendRequest, hconf]⟩
        | true =>
          exact ⟨.success (jsOrElse b.content "") (jsOrElse b.model (jsOrElse model config.defaultModel)),
            by simp [performBackendRequest, hconf]⟩
  · intro msg hfr
    subst hfr
    exact ⟨by simp [performBackendRequest, hconf], strContains_mockContent _ _ _⟩
  · intro ok st hfr
    subst hfr
    simp [performBackendRequest, hconf]
  · intro st body hfr
    subst hfr
    exact ⟨by simp [performBackendRequest, hconf], strContains_mockContent _ _ _⟩

/-- Witness for `backend_failures_become_mock_success`: a 502 backend reply
with an error body resolves to the success-shaped mock outcome embedding that
error text. -/
theorem backend_failures_become_mock_success_witness :
    performBackendRequest "openai" "/chat/completions" "hi" none
        (.response false "Bad Gateway"
          (some { error := some "OpenAI API error (502): upstream unavailable"
                  content := none, model := none })) =
      .ok (.success (mockContent "ChatGPT" "hi" "OpenAI API error (502): upstream unavailable")
        "gpt-4o-mini (mock)") := by
  have h := ((backend_failures_become_mock_success "openai" "/chat/completions" "hi" none
    (.response false "Bad Gateway"
      (some { error := some "OpenAI API error (502): upstream unavailable"
              content := none, model := none }))
    _ rfl).2.2.2 "Bad Gateway"
    { error := some "OpenAI API error (502): upstream unavailable"
      content := none, model := none } rfl).1
  exact h.trans (by decide)

/-- C3: Gemini normalization follows the exact precedence truncation note >
block/safety explanation > generic fallback.  With non-empty joined text and
finish reason `MAX_OUTPUT_TOKENS` the output is the text plus the truncation
note mentioning the configured token limit (and just the text otherwise); with
no text and a block reason, blocked safety category, or non-STOP finish reason
present, the output is the non-empty explanatory message built from those
signals (containing `SAFETY` when the block reason is `SAFETY`); with no text
and no signal, the generic no-text message is emitted. -/
theorem normalizeGemini_precedence (data : GeminiData) (maxOutputTokens : Nat) :
    (geminiJoinedText data ≠ "" → primaryFinishReason data = some "MAX_OUTPUT_TOKENS" →
       normalizeGeminiContent data maxOutputTokens =
         geminiJoinedText data ++ geminiTruncationNote maxOutputTokens ∧
       (maxOutputTokens ≠ 0 →
          strContains (toString maxOutputTokens)
            (normalizeGeminiContent data maxOutputTokens))) ∧
    (geminiJoinedText data ≠ "" → primaryFinishReason data ≠ some "MAX_OUTPUT_TOKENS" →
       normalizeGeminiContent data maxOutputTokens = geminiJoinedText data) ∧
    (geminiJoinedText data = "" → geminiHasNoTextSignal data = true →
       normalizeGeminiContent data maxOutputTokens = geminiNoTextExplanation data ∧
       normalizeGeminiContent data maxOutputTokens ≠ "" ∧
       (geminiBlockReason data = some "SAFETY" →
          strContains "SAFETY" (normalizeGeminiContent data maxOutputTokens))) ∧
    (geminiJoinedText data = "" → geminiHasNoTextSignal data = false →
       normalizeGeminiContent data maxOutputTokens = geminiGenericNoTextMsg) := by
  refine ⟨?_, ?_, ?_, ?_⟩
  · intro hne hmax
    have hne2 : geminiJoinedText data ++ geminiTruncationNote maxOutputTokens ≠ "" :=
      append_ne_empty_left _ _ hne
    have h1 : normalizeGeminiContent data maxOutputTokens =
        geminiJoinedText data ++ geminiTruncationNote maxOutputTokens := by
      simp [normalizeGeminiContent, hne, hmax, hne2]
    refine ⟨h1, fun hmz => ?_⟩
    have h2 : strContains (toString maxOutputTokens) (geminiTruncationNote maxOutputTokens) := by
      unfold geminiTruncationNote
      rw [show geminiLimitStr maxOutputTokens = toString maxOutputTokens by
        simp [geminiLimitStr, hmz]]
      exact strContains_appendR _ _ _ (strContains_appendL _ _ _ (strContains_self _))
    rw [h1]
    exact strContains_appendL _ _ _ h2
  · intro hne hnm
    have hb : (primaryFinishReason data == some "MAX_OUTPUT_TOKENS") = false :=
      beq_eq_false_iff_ne.mpr hnm
    simp [normalizeGeminiContent, hne, hb]
  · intro hz hsig
    have hexp : geminiNoTextExplanation data ≠ "" := by
      unfold geminiNoTextExplanation
      exact append_ne_empty_left _ _ (append_ne_empty_left _ _ (by decide))
    have heq : normalizeGeminiContent data maxOutputTokens = geminiNoTextExplanation data := by
      simp [normalizeGeminiContent, hz, hsig, hexp]
    refine ⟨heq, heq ▸ hexp, fun hbr => ?_⟩
    have hmem : ("block reason: " ++ "SAFETY") ∈ geminiReasonParts data := by
      simp only [geminiReasonParts, hbr]
      simp
    have hj : strContains "SAFETY" (jsJoin "; " (geminiReasonParts data)) :=
      strContains_jsJoin _ _ _ _ hmem (strContains_appendL _ _ _ (strContains_self _))
    have hjne : jsJoin "; " (geminiReasonParts data) ≠ "" :=
      ne_empty_of_strContains _ _ hj (by decide)
    rw [heq]
    simp only [geminiNoTextExplanation]
    rw [if_neg hjne]
    exact strContains_appendR _ _ _ (strContains_appendL _ _ _ hj)
  · intro hz hsigf
    have hfr : primaryFinishReason data ≠ some "MAX_OUTPUT_TOKENS" := by
      intro he
      have hns : finishReasonNonStop (primaryFinishReason data) = true := by
        rw [he]; decide
      simp [geminiHasNoTextSignal, hns] at hsigf
    have hb : (primaryFinishReason data == some "MAX_OUTPUT_TOKENS") = false :=
      beq_eq_false_iff_ne.mpr hfr
    simp [normalizeGeminiContent, hz, hsigf, hb]

/-- Witness for `normalizeGemini_precedence`: a response with no candidates
and `blockReason: "SAFETY"` normalizes to the non-empty explanatory message. -/
theorem normalizeGemini_precedence_witness :
    normalizeGeminiContent gdataW 2048 = geminiNoTextExplanation gdataW ∧
    normalizeGeminiContent gdataW 2048 ≠ "" := by
  have h := (normalizeGemini_precedence gdataW 2048).2.2.1 (by decide) (by decide)
  exact ⟨h.1, h.2.1⟩

/-- C7: a non-blank follow-up reply appends the (trimmed) user turn before
dispatch, the dispatch prompt is the full rendered history — every prior turn
as a labeled line plus the new user text — the assistant turn is appended
exactly when the call succeeds with non-empty content, and on failure (or
empty content) the final history is the prior history plus the user turn with
no assistant turn. -/
theorem handleReplySubmit_history (existing : List ConversationTurn) (replyValue : String)
    (m : ModelConfiguration) (fr : FetchResult) (hne : jsTrim replyValue ≠ "") :
    ((∀ t, t ∈ existing → t.text ≠ "") →
       formatConversationForPrompt
           (existing ++ [{ sender := Sender.user, text := jsTrim replyValue }]) =
         jsJoin "\n\n"
           (List.map
             (fun t : ConversationTurn =>
               (if t.sender = Sender.user then "User: " else "Assistant: ") ++ t.text)
             (existing ++ [{ sender := Sender.user, text := jsTrim replyValue }]))) ∧
    (∀ c mdl,
       callAIModel m.providerId
           (formatConversationForPrompt
             (existing ++ [{ sender := Sender.user, text := jsTrim replyValue }]))
           (some m.model) m.apiKey fr = .ok (.success c mdl) →
       handleReplySubmit existing replyValue m fr =
         some ((existing ++ [{ sender := Sender.user, text := jsTrim replyValue }]) ++
             (if c = "" then [] else [{ sender := Sender.assistant, text := c }]),
           .success c mdl)) ∧
    (∀ msg,
       callAIModel m.providerId
           (formatConversationForPrompt
             (existing ++ [{ sender := Sender.user, text := jsTrim replyValue }]))
           (some m.model) m.apiKey fr = .error msg → msg ≠ "" →
       handleReplySubmit existing replyValue m fr =
         some (existing ++ [{ sender := Sender.user, text := jsTrim replyValue }],
           .failure msg m.model)) := by
  refine ⟨?_, ?_, ?_⟩
  · intro hall
    have hfilter : List.filter (fun t => t.text ≠ "")
        (existing ++ [({ sender := Sender.user, text := jsTrim replyValue } : ConversationTurn)]) =
        existing ++ [({ sender := Sender.user, text := jsTrim replyValue } : ConversationTurn)] := by
      rw [List.filter_eq_self]
      intro a ha
      rcases List.mem_append.mp ha with hmem | hmem
      · simpa using hall a hmem
      · simp at hmem
        subst hmem
        simpa using hne
    unfold formatConversationForPrompt
    rw [hfilter]
  · intro c mdl hcall
    by_cases hc : c = ""
    · subst hc
      simp [handleReplySubmit, hne, hcall]
    · simp [handleReplySubmit, hne, hcall, hc]
  · intro msg hcall hmsg
    simp [handleReplySubmit, hne, hcall, hmsg]

/-- Witness for `handleReplySubmit_history`: a successful reply appends both
the trimmed user turn and the assistant turn. -/
theorem handleReplySubmit_history_witness :
    handleReplySubmit
        [{ sender := Sender.user, text := "hi" }, { sender := Sender.assistant, text := "hello" }]
        " more " modelB
        (.response true "OK" (some { error := none, content := some "sure"
                                     model := some "gpt-4o-mini" })) =
      some ([{ sender := Sender.user, text := "hi" },
             { sender := Sender.assistant, text := "hello" },
             { sender := Sender.user, text := "more" },
             { sender := Sender.assistant, text := "sure" }],
        .success "sure" "gpt-4o-mini") := by
  have h := (handleReplySubmit_history
    [{ sender := Sender.user, text := "hi" }, { sender := Sender.assistant, text := "hello" }]
    " more " modelB
    (.response true "OK" (some { error := none, content := some "sure"
                                 model := some "gpt-4o-mini" }))
    (by decide)).2.1 "sure" "gpt-4o-mini" (by decide)
  exact h.trans (by decide)

/-- C10: a fresh top-level submission replaces the whole conversation map:
afterwards a history exists exactly for each configuration active in the
round — reset to the single initial user turn — and any configuration not in
the round, such as an inactive one, has no entry at all (its previous history
is gone, since the new map is built from the active list alone). -/
theorem submit_resets_conversations (prompt : String) (models : List ModelConfiguration)
    (hnodup : (models.map ModelConfiguration.id).Nodup) :
    (∀ m, m ∈ models → m.isActive = true →
       (resetConversations prompt (models.filter (fun x => x.isActive))).lookup m.id =
         some [{ sender := Sender.user, text := prompt }]) ∧
    (∀ k, k ∉ (models.filter (fun x => x.isActive)).map ModelConfiguration.id →
       (resetConversations prompt (models.filter (fun x => x.isActive))).lookup k = none) ∧
    (∀ m, m ∈ models → m.isActive = false →
       (resetConversations prompt (models.filter (fun x => x.isActive))).lookup m.id = none) := by
  have hsub : List.Sublist ((models.filter (fun x => x.isActive)).map ModelConfiguration.id)
      (models.map ModelConfiguration.id) :=
    (List.filter_sublist models).map ModelConfiguration.id
  have hnodup2 : ((models.filter (fun x => x.isActive)).map ModelConfiguration.id).Nodup :=
    hnodup.sublist hsub
  refine ⟨?_, ?_, ?_⟩
  · intro m hm hact
    exact lookup_reset_mem prompt _ m (List.mem_filter.mpr ⟨hm, by simp [hact]⟩) hnodup2
  · intro k hk
    exact lookup_reset_not_mem prompt _ k hk
  · intro m hm hinact
    apply lookup_reset_not_mem
    intro hmem
    rcases List.mem_map.mp hmem with ⟨m2, hm2, hid⟩
    have hm2' := List.mem_filter.mp hm2
    have : m2 = m := List.inj_on_of_nodup_map hnodup hm2'.1 hm hid
    rw [this] at hm2'
    rw [hinact] at hm2'
    simpa using hm2'.2

/-- Witness for `submit_resets_conversations`: after a fresh submission over a
list whose Gemini instance is inactive, that instance has no history entry. -/
theorem submit_resets_conversations_witness :
    (resetConversations "new prompt"
        ([modelB, modelInactive].filter (fun x => x.isActive))).lookup "gemini-default" =
      none := by
  exact (submit_resets_conversations "new prompt" [modelB, modelInactive]
    (by decide)).2.2 modelInactive (by decide) rfl
